import Mathlib

/-
Shallow embedding of src/raft.py: a single node of a replicated key-value
service (Raft consensus, early stage).  Python dicts holding JSON values are
modelled with String keys and Int values; the message dispatch, the log, the
KV state machine and the Raft role bookkeeping are translated function by
function from the source.  Wall-clock concerns (election deadlines, the
random timeout factor, sleeping) only touch timing state and are out of the
claims' scope, so reset_election_deadline is modelled as the identity on the
modelled fields.  Python exceptions are modelled with Except String.
-/

set_option autoImplicit false

namespace Raft

/-- Keys of the key-value store (Python dict keys). -/
abbrev Key := String

/-- Values of the key-value store (JSON values, modelled as integers). -/
abbrev Value := Int

/-- The KVStore.state dict, modelled as an association list with unique keys
kept in insertion order, mirroring Python dict semantics. -/
abbrev KVState := List (Key × Value)

/-- Python dict lookup: `state[k]` / `k in state`. -/
def dictGet : KVState → Key → Option Value
  | [], _ => none
  | (k1, v) :: rest, k => if k1 = k then some v else dictGet rest k

/-- Python dict assignment `state[k] = v`: replace in place or append. -/
def dictSet : KVState → Key → Value → KVState
  | [], k, v => [(k, v)]
  | (k1, v1) :: rest, k, v =>
      if k1 = k then (k, v) :: rest else (k1, v1) :: dictSet rest k v

/-- A client operation body, before `kv_req` attaches the client id
(`op["client"] = msg["src"]`). -/
inductive ClientOp where
  | read (key : Key) (msg_id : Nat)
  | write (key : Key) (value : Value) (msg_id : Nat)
  | cas (key : Key) (frm : Value) (tov : Value) (msg_id : Nat)
deriving DecidableEq

/-- A client operation with the originating client attached, as stored in
the op dict handed to KVStore.apply. -/
structure Op where
  cop : ClientOp
  client : String
deriving DecidableEq

/-- The response bodies KVStore.apply can produce. -/
inductive RespType where
  | read_ok (value : Value)
  | write_ok
  | cas_ok
  | error (code : Nat) (text : String)
deriving DecidableEq

/-- Bodies of messages this node sends. -/
inductive OutBody where
  | raft_init_ok (in_reply_to : Nat)
  | resp (res : RespType) (in_reply_to : Nat)
  | request_vote (term : Nat) (candidate_id : String)
      (last_log_index : Nat) (last_log_term : Nat) (msg_id : Nat)
deriving DecidableEq

/-- An outbound message: destination plus body (the src field is always this
node's id and carries no information the claims test). -/
structure OutMsg where
  dest : String
  body : OutBody
deriving DecidableEq

/-- Whether an outbound body is a KV error response. -/
def OutBody.isError : OutBody → Bool
  | .resp (.error _ _) _ => true
  | _ => false

/-- KVStore.apply from the source: applies an op to the state dict and
returns the new dict together with the response message
(dest = op["client"], body carrying in_reply_to = op["msg_id"]). -/
def KVStore.apply (state : KVState) (op : Op) : KVState × OutMsg :=
  match op.cop with
  | .read k msgId =>
      (match dictGet state k with
        | some v => (state, ⟨op.client, .resp (.read_ok v) msgId⟩)
        | none => (state, ⟨op.client, .resp (.error 20 "not found") msgId⟩))
  | .write k v msgId =>
      (dictSet state k v, ⟨op.client, .resp .write_ok msgId⟩)
  | .cas k frm tov msgId =>
      (match dictGet state k with
        | none => (state, ⟨op.client, .resp (.error 20 "not found") msgId⟩)
        | some cur =>
            if cur ≠ frm then
              (state, ⟨op.client,
                .resp (.error 22 ("expected " ++ toString frm ++ " but had "
                  ++ toString cur)) msgId⟩)
            else
              (dictSet state k tov, ⟨op.client, .resp .cas_ok msgId⟩))

/-- A Raft log entry: a term plus an op (None for the seed entry). -/
structure LogEntry where
  term : Nat
  op : Option Op
deriving DecidableEq

/-- The Log class: a Python list of entries. -/
structure Log where
  entries : List LogEntry
deriving DecidableEq

/-- Python list indexing `l[i]`: non-negative indices from the front,
negative indices wrap from the back, out of range raises (none). -/
def pyGet {α : Type} (l : List α) (i : Int) : Option α :=
  if 0 ≤ i then l.get? i.toNat
  else if 0 ≤ (l.length : Int) + i then l.get? ((l.length : Int) + i).toNat
  else none

/-- Log.__init__: the list seeded with the default entry term 0, op None. -/
def Log.init : Log := ⟨[⟨0, none⟩]⟩

/-- Log.get from the source: `self.entries[i - 1]`, with Python indexing. -/
def Log.get (lg : Log) (i : Int) : Option LogEntry := pyGet lg.entries (i - 1)

/-- Log.append: `self.entries.extend(entries)`. -/
def Log.append (lg : Log) (es : List LogEntry) : Log := ⟨lg.entries ++ es⟩

/-- Log.last: `self.entries[-1]`. -/
def Log.last (lg : Log) : Option LogEntry := pyGet lg.entries (-1)

/-- Log.size: `len(self.entries)`. -/
def Log.size (lg : Log) : Nat := lg.entries.length

/-- The reply callbacks the node registers (Net.callbacks values).  The only
rpc issued by the source is the request_vote broadcast, whose handler is a
closure capturing the term at candidacy time. -/
inductive Callback where
  | voteRes (capturedTerm : Nat)
deriving DecidableEq

/-- The modelled mutable state of RaftNode together with its Net, Log and
KVStore components.  node_id and node_ids are empty before raft_init
(Python None).  The votes field holds the closure-local `votes` set of the
most recent request_votes call; handlers from older calls capture an older
term and never pass their term guard, so they never touch it, matching the
Python closures whose abandoned sets are unobservable. -/
structure NodeState where
  node_id : String
  node_ids : List String
  state : String
  current_term : Nat
  next_msg_id : Nat
  callbacks : List (Nat × Callback)
  raft_log : Log
  kv : KVState
  votes : List String
deriving DecidableEq

/-- RaftNode.__init__ (plus Net/Log/KVStore constructors). -/
def initNode : NodeState :=
  { node_id := "", node_ids := [], state := "nascent", current_term := 0,
    next_msg_id := 0, callbacks := [], raft_log := Log.init, kv := [],
    votes := [] }

/-- RaftNode.advance_term: raises RuntimeError("Can\x27t go backwards") unless
the new term is strictly larger. -/
def advance_term (s : NodeState) (term : Nat) : Except String NodeState :=
  if ¬ s.current_term < term then .error "Can\x27t go backwards"
  else .ok { s with current_term := term }

/-- RaftNode.become_follower: set state; reset_election_deadline touches
only timing state. -/
def become_follower (s : NodeState) : NodeState :=
  { s with state := "follower" }

/-- RaftNode.maybe_step_down: on a remote term bigger than ours, advance the
term and become a follower. -/
def maybe_step_down (s : NodeState) (remote_term : Nat) :
    Except String NodeState :=
  if s.current_term < remote_term then
    match advance_term s remote_term with
    | .error e => .error e
    | .ok s1 => .ok (become_follower s1)
  else .ok s

/-- Python set.add on the votes set (insertion-ordered model). -/
def setAdd (xs : List String) (x : String) : List String :=
  if x ∈ xs then xs else xs ++ [x]

/-- The `handler` closure defined inside RaftNode.request_votes, with
captured_term the closure's captured `term`: step down on the reply term,
then record the vote when still a candidate in the captured term and the
reply grants a vote for the current term. -/
def vote_res_handler (captured_term : Nat) (src : String) (reply_term : Nat)
    (vote_granted : Bool) (s : NodeState) : Except String NodeState :=
  match maybe_step_down s reply_term with
  | .error e => .error e
  | .ok s1 =>
      if s1.state = "candidate" ∧ s1.current_term = captured_term ∧
          reply_term = s1.current_term ∧ vote_granted = true then
        .ok { s1 with votes := setAdd s1.votes src }
      else
        .ok s1

/-- Python list.remove of the first occurrence (RaftNode.other_nodes). -/
def pyRemoveFirst : List String → String → List String
  | [], _ => []
  | y :: ys, x => if y = x then ys else y :: pyRemoveFirst ys x

/-- RaftNode.other_nodes: all nodes except this one. -/
def other_nodes (s : NodeState) : List String :=
  pyRemoveFirst s.node_ids s.node_id

/-- RaftNode.brpc specialised to the request_vote broadcast: each rpc call
allocates a fresh msg_id, records the vote-response callback under it, and
sends the request_vote body. -/
def brpcVote (term : Nat) (cand : String) (lastIndex lastTerm : Nat) :
    NodeState → List String → NodeState × List OutMsg
  | s, [] => (s, [])
  | s, n :: rest =>
      let mid := s.next_msg_id
      let s1 := { s with next_msg_id := mid + 1,
                         callbacks := s.callbacks ++ [(mid, .voteRes term)] }
      let p := brpcVote term cand lastIndex lastTerm s1 rest
      (p.1, ⟨n, .request_vote term cand lastIndex lastTerm mid⟩ :: p.2)

/-- RaftNode.request_votes: vote for ourselves (the closure-local votes set
becomes the votes field), then broadcast request_vote with our log position.
Log.last never returns none in the source (the entries list is seeded), so
the none arm is dead. -/
def request_votes (s : NodeState) : NodeState × List OutMsg :=
  let s0 := { s with votes := [s.node_id] }
  let lastTerm := match s0.raft_log.last with | some e => e.term | none => 0
  brpcVote s0.current_term s0.node_id s0.raft_log.size lastTerm s0
    (other_nodes s0)

/-- RaftNode.become_candidate: set state, advance the term by one, request
votes (reset_election_deadline touches only timing state). -/
def become_candidate (s : NodeState) : Except String (NodeState × List OutMsg) :=
  let s1 := { s with state := "candidate" }
  match advance_term s1 (s1.current_term + 1) with
  | .error e => .error e
  | .ok s2 => .ok (request_votes s2)

/-- Bodies of inbound messages.  Dispatch in Net.process_msg keys first on
the presence of in_reply_to, then on the registered type handlers
(raft_init, read, write, cas); any other type raises.  The reply bodies the
source ever consumes are request_vote_res replies carrying term and
vote_granted. -/
inductive Body where
  | raft_init (node_id : String) (node_ids : List String) (msg_id : Nat)
  | client (op : ClientOp)
  | reply (in_reply_to : Nat) (term : Nat) (vote_granted : Bool)
  | other (msg_type : String) (msg_id : Nat)
deriving DecidableEq

/-- An inbound message envelope. -/
structure Msg where
  src : String
  dest : String
  body : Body
deriving DecidableEq

/-- Python dict lookup in Net.callbacks. -/
def lookupCallback : List (Nat × Callback) → Nat → Option Callback
  | [], _ => none
  | (i, c) :: rest, m => if i = m then some c else lookupCallback rest m

/-- Python `del self.callbacks[m]` (keys are unique). -/
def removeCallback : List (Nat × Callback) → Nat → List (Nat × Callback)
  | [], _ => []
  | (i, c) :: rest, m =>
      if i = m then removeCallback rest m else (i, c) :: removeCallback rest m

/-- The raft_init handler: raises on re-initialization, otherwise records
the node identity, becomes a follower and replies raft_init_ok. -/
def raft_init (s : NodeState) (src : String) (nid : String)
    (nids : List String) (mid : Nat) : Except String (NodeState × List OutMsg) :=
  if s.state ≠ "nascent" then .error "Can\x27t init twice!"
  else
    let s1 := { s with node_id := nid, node_ids := nids }
    let s2 := become_follower s1
    .ok (s2, [⟨src, .raft_init_ok mid⟩])

/-- The kv_req handler: attach the client (msg src) to the op, apply it to
the state machine, and send the resulting response. -/
def kv_req (s : NodeState) (src : String) (op : ClientOp) :
    NodeState × List OutMsg :=
  let p := KVStore.apply s.kv ⟨op, src⟩
  ({ s with kv := p.1 }, [p.2])

/-- Net.process_msg dispatch for one inbound message, composed with the
registered handlers: replies go through the callbacks table (the dict
lookup raises KeyError on an unknown id; on a hit the entry is deleted
before the handler runs), other messages go to the per-type handlers, and
an unregistered type raises. -/
def handleMsg (s : NodeState) (m : Msg) : Except String (NodeState × List OutMsg) :=
  match m.body with
  | .reply r term granted =>
      (match lookupCallback s.callbacks r with
        | none => .error ("KeyError: " ++ toString r)
        | some (.voteRes capturedTerm) =>
            match vote_res_handler capturedTerm m.src term granted
                { s with callbacks := removeCallback s.callbacks r } with
            | .error e => .error e
            | .ok s2 => .ok (s2, []))
  | .raft_init nid nids mid => raft_init s m.src nid nids mid
  | .client op => .ok (kv_req s m.src op)
  | .other t _ => .error ("No callback or handler for " ++ t)

/-- One input to the main loop: either an inbound message or a keyboard
interrupt (the only thing the loop treats specially). -/
inductive LoopEvent where
  | msg (m : Msg)
  | interrupt
deriving DecidableEq

/-- What one loop iteration does next. -/
inductive LoopOutcome where
  | continued
  | aborted
deriving DecidableEq

/-- One iteration of RaftNode.main on an event: KeyboardInterrupt breaks
the loop; any exception escaping a handler is caught by the bare except,
logged, and the loop continues with the state as it was (every raise in the
modelled handlers happens before any mutation). -/
def mainStep (s : NodeState) (e : LoopEvent) :
    NodeState × List OutMsg × LoopOutcome :=
  match e with
  | .interrupt => (s, [], .aborted)
  | .msg m =>
      match handleMsg s m with
      | .ok (s1, out) => (s1, out, .continued)
      | .error _ => (s, [], .continued)

/-- C4: for every key/value state and every cas operation on key k with
fields frm and tov: if k is absent the reply is error 20 "not found"; if k
is present with a current value different from frm, the reply is error 22
with text "expected <frm> but had <current>"; otherwise k is set to tov and
the reply is cas_ok; in every case the reply carries in_reply_to equal to
the operation msg_id and is addressed to the operation client. -/
theorem c4_cas_reply_semantics (st : KVState) (k : Key) (frm tov : Value)
    (mid : Nat) (cl : String) :
    (dictGet st k = none →
      KVStore.apply st ⟨.cas k frm tov mid, cl⟩ =
        (st, ⟨cl, .resp (.error 20 "not found") mid⟩)) ∧
    (∀ cur, dictGet st k = some cur → cur ≠ frm →
      KVStore.apply st ⟨.cas k frm tov mid, cl⟩ =
        (st, ⟨cl, .resp (.error 22 ("expected " ++ toString frm ++
          " but had " ++ toString cur)) mid⟩)) ∧
    (dictGet st k = some frm →
      KVStore.apply st ⟨.cas k frm tov mid, cl⟩ =
        (dictSet st k tov, ⟨cl, .resp .cas_ok mid⟩)) ∧
    ((KVStore.apply st ⟨.cas k frm tov mid, cl⟩).2.dest = cl ∧
      ∃ r, (KVStore.apply st ⟨.cas k frm tov mid, cl⟩).2.body = .resp r mid) := by
  refine ⟨?_, ?_, ?_, ?_⟩
  · intro h; simp [KVStore.apply, h]
  · intro cur h hne; simp [KVStore.apply, h, hne]
  · intro h; simp [KVStore.apply, h]
  · cases h : dictGet st k with
    | none => simp [KVStore.apply, h]
    | some cur =>
        by_cases hc : cur = frm
        · simp [KVStore.apply, h, hc]
        · simp [KVStore.apply, h, hc]

/-- Witness for c4_cas_reply_semantics at a concrete state and cas op. -/
theorem c4_cas_reply_semantics_witness :
    KVStore.apply [("x", 2)] ⟨.cas "x" 1 3 9, "c1"⟩ =
      ([("x", 2)], ⟨"c1", .resp (.error 22 ("expected " ++ toString (1 : Int)
        ++ " but had " ++ toString (2 : Int))) 9⟩) :=
  (c4_cas_reply_semantics [("x", 2)] "x" 1 3 9 "c1").2.1 2 (by decide) (by decide)

/-- C5: applying a cas whose reply is an error (key absent, or current value
different from frm) leaves the key/value mapping unchanged. -/
theorem c5_cas_error_is_noop (st : KVState) (k : Key) (frm tov : Value)
    (mid : Nat) (cl : String)
    (herr : ((KVStore.apply st ⟨.cas k frm tov mid, cl⟩).2.body).isError = true) :
    (KVStore.apply st ⟨.cas k frm tov mid, cl⟩).1 = st := by
  cases h : dictGet st k with
  | none => simp [KVStore.apply, h]
  | some cur =>
      by_cases hc : cur = frm
      · exfalso
        simp [KVStore.apply, h, hc, OutBody.isError] at herr
      · simp [KVStore.apply, h, hc]

/-- Witness for c5_cas_error_is_noop: a cas against the wrong expected value
errors and leaves the state intact. -/
theorem c5_cas_error_is_noop_witness :
    (KVStore.apply [("x", 2)] ⟨.cas "x" 1 3 9, "c1"⟩).1 = [("x", 2)] :=
  c5_cas_error_is_noop [("x", 2)] "x" 1 3 9 "c1" (by decide)

/-- A node in role follower, as left by raft_init on a three-node cluster. -/
def c1FollowerNode : NodeState :=
  { node_id := "n0", node_ids := ["n0", "n1", "n2"], state := "follower",
    current_term := 0, next_msg_id := 0, callbacks := [],
    raft_log := Log.init, kv := [], votes := [] }

/-- C1: the claim says a follower replies error 11 "not a leader" to client
ops and does not apply them locally.  The code instead applies the op to the
local state machine and replies with the state machine result: on a client
write while follower, the kv mapping changes and the reply is write_ok, not
the error 11 body. -/
theorem c1_follower_applies_client_op_locally :
    handleMsg c1FollowerNode ⟨"c1", "n0", .client (.write "x" 1 5)⟩ =
      .ok ({ c1FollowerNode with kv := [("x", 1)] },
        [⟨"c1", .resp .write_ok 5⟩]) ∧
    OutBody.resp .write_ok 5 ≠ .resp (.error 11 "not a leader") 5 := by
  exact ⟨rfl, by decide⟩

/-- A candidate in term 1 on a three-node cluster, having voted for itself
and broadcast request_vote under callback ids 0 and 1 (the state produced by
become_candidate from the follower state). -/
def c2CandidateNode : NodeState :=
  { node_id := "n0", node_ids := ["n0", "n1", "n2"], state := "candidate",
    current_term := 1, next_msg_id := 2,
    callbacks := [(0, .voteRes 1), (1, .voteRes 1)],
    raft_log := Log.init, kv := [], votes := ["n0"] }

/-- The same candidate after processing a granted vote from n1. -/
def c2CandidateAfterVote : NodeState :=
  { c2CandidateNode with
    callbacks := [(1, .voteRes 1)],
    votes := ["n0", "n1"] }

/-- Sanity check: c2CandidateNode is exactly what become_candidate produces
from the initialized follower, so the scenario state is reachable. -/
theorem c2_candidate_state_reachable :
    become_candidate { c1FollowerNode with kv := [], votes := [] } =
      .ok (c2CandidateNode,
        [⟨"n1", .request_vote 1 "n0" 1 0 0⟩, ⟨"n2", .request_vote 1 "n0" 1 0 1⟩]) := by
  rfl

/-- C2: the claim says that once granted votes plus the self-vote form a
strict majority of node_ids, the candidate transitions to leader.  The code
only records the vote: after the granted vote from n1 the vote set is a
strict majority of the three nodes, yet the role is still candidate (the
source has no leader transition at all). -/
theorem c2_majority_without_leader_transition :
    handleMsg c2CandidateNode ⟨"n1", "n0", .reply 0 1 true⟩ =
      .ok (c2CandidateAfterVote, []) ∧
    2 * c2CandidateAfterVote.votes.length > c2CandidateAfterVote.node_ids.length ∧
    c2CandidateAfterVote.state = "candidate" := by
  exact ⟨rfl, by decide, rfl⟩

/-- A concrete committed operation used to populate logs in examples. -/
def sampleOp : Op := ⟨.write "x" 1 0, "c1"⟩

/-- C6 counterexample: on a log holding one real entry, get(1) returns the
sentinel entry term 0 / op null, not the first real entry, because
entries[i - 1] places the sentinel at index 1. -/
theorem c6_counterexample_get_one_is_sentinel :
    (Log.init.append [⟨1, some sampleOp⟩]).get 1 = some ⟨0, none⟩ ∧
    (⟨0, none⟩ : LogEntry) ≠ ⟨1, some sampleOp⟩ := by
  exact ⟨rfl, by decide⟩

/-- Helper: indexing a cons cell at the length of its nonempty tail returns
the last element of that tail. -/
theorem cons_get_length_eq_getLast {α : Type} (a : α) (es : List α)
    (h : es ≠ []) : (a :: es).get? es.length = es.getLast? := by
  have h1 : 0 < es.length := List.length_pos.mpr h
  have h2 : es.length = (es.length - 1) + 1 := by omega
  rw [h2]
  show es.get? (es.length - 1) = es.getLast?
  rw [List.getLast?_eq_getElem?, List.get?_eq_getElem?]

/-- C6 amended: the sentinel entry term 0 / op null sits at get-index 1 (the
head of the entries list) and real entries start at get-index 2; size()
counts the real entries plus the sentinel and is the get-index of the last
real entry; last() returns the sentinel when there are no real entries. -/
theorem c6_amended_sentinel_at_index_one (es : List LogEntry) (h : es ≠ []) :
    (Log.init.append es).get 1 = some ⟨0, none⟩ ∧
    (Log.init.append es).get 2 = es.head? ∧
    (Log.init.append es).size = es.length + 1 ∧
    (Log.init.append es).get (((Log.init.append es).size : Nat) : Int) =
      es.getLast? ∧
    Log.init.last = some ⟨0, none⟩ := by
  refine ⟨?_, ?_, ?_, ?_, rfl⟩
  · rfl
  · show pyGet ((⟨0, none⟩ : LogEntry) :: es) (2 - 1) = es.head?
    rw [show ((2 : Int) - 1) = 1 from rfl]
    unfold pyGet
    rw [if_pos (by omega)]
    show es.get? 0 = es.head?
    exact List.get?_zero es
  · show ((⟨0, none⟩ : LogEntry) :: es).length = es.length + 1
    simp
  · show pyGet ((⟨0, none⟩ : LogEntry) :: es)
      (((((⟨0, none⟩ : LogEntry) :: es).length : Nat) : Int) - 1) = es.getLast?
    unfold pyGet
    rw [if_pos (by simp)]
    have h3 : (((((⟨0, none⟩ : LogEntry) :: es).length : Nat) : Int) - 1).toNat
        = es.length := by
      simp
    rw [h3]
    exact cons_get_length_eq_getLast _ es h

/-- Witness for c6_amended_sentinel_at_index_one on a log with one real
entry. -/
theorem c6_amended_witness :
    (Log.init.append [⟨1, some sampleOp⟩]).get 1 = some ⟨0, none⟩ ∧
    (Log.init.append [⟨1, some sampleOp⟩]).get 2 =
      [(⟨1, some sampleOp⟩ : LogEntry)].head? :=
  ⟨(c6_amended_sentinel_at_index_one [⟨1, some sampleOp⟩] (by decide)).1,
   (c6_amended_sentinel_at_index_one [⟨1, some sampleOp⟩] (by decide)).2.1⟩

/-- C10: Log.get is total for every index 0 ≤ i ≤ size(), and get(0), going
through Python negative indexing of entries[i - 1], returns the last entry
(the value of last()), which on a log with real entries is the last real
entry rather than the sentinel. -/
theorem c10_get_total_and_get_zero_is_last (l : Log) (hne : l.entries ≠ []) :
    (∀ i : Int, 0 ≤ i → i ≤ (l.size : Int) → ∃ e, l.get i = some e) ∧
    l.get 0 = l.last ∧
    (∀ es : List LogEntry, es ≠ [] →
      (Log.init.append es).get 0 = es.getLast?) := by
  have hlen : 0 < l.entries.length := List.length_pos.mpr hne
  refine ⟨?_, ?_, ?_⟩
  · intro i h0 hle
    unfold Log.get pyGet
    by_cases h1 : 0 ≤ i - 1
    · rw [if_pos h1]
      have hlt : (i - 1).toNat < l.entries.length := by
        have hsz : (l.size : Int) = (l.entries.length : Int) := rfl
        omega
      cases hg : l.entries.get? (i - 1).toNat with
      | none => exact absurd (List.get?_eq_none.mp hg) (by omega)
      | some e => exact ⟨e, rfl⟩
    · rw [if_neg h1]
      have h2 : 0 ≤ (l.entries.length : Int) + (i - 1) := by omega
      rw [if_pos h2]
      have hlt : ((l.entries.length : Int) + (i - 1)).toNat
          < l.entries.length := by omega
      cases hg : l.entries.get? ((l.entries.length : Int) + (i - 1)).toNat with
      | none => exact absurd (List.get?_eq_none.mp hg) (by omega)
      | some e => exact ⟨e, rfl⟩
  · rfl
  · intro es hes
    show pyGet ((⟨0, none⟩ : LogEntry) :: es) (0 - 1) = es.getLast?
    unfold pyGet
    rw [if_neg (by omega)]
    rw [if_pos (by simp)]
    have h3 : (((((⟨0, none⟩ : LogEntry) :: es).length : Nat) : Int) + (0 - 1)).toNat
        = es.length := by
      simp
    rw [h3]
    exact cons_get_length_eq_getLast _ es hes

/-- A concrete log with one real entry, for the C10 witness. -/
def c10Log : Log := Log.init.append [⟨1, some sampleOp⟩]

/-- Witness for c10_get_total_and_get_zero_is_last: get is defined at 0 on a
concrete log and returns the same entry as last(). -/
theorem c10_witness :
    (∃ e, c10Log.get 0 = some e) ∧ c10Log.get 0 = c10Log.last :=
  ⟨(c10_get_total_and_get_zero_is_last c10Log (by decide)).1 0 (by decide)
      (by decide),
   (c10_get_total_and_get_zero_is_last c10Log (by decide)).2.1⟩

/-- Helper: maybe_step_down never raises (its advance_term call is guarded
by the strict comparison), never lowers the term, and leaves callbacks, kv,
log and votes alone. -/
theorem maybe_step_down_ok (s : NodeState) (t : Nat) :
    ∃ s1, maybe_step_down s t = .ok s1 ∧ s.current_term ≤ s1.current_term ∧
      s1.callbacks = s.callbacks ∧ s1.kv = s.kv ∧ s1.votes = s.votes ∧
      s1.raft_log = s.raft_log := by
  by_cases h : s.current_term < t
  · refine ⟨become_follower { s with current_term := t }, ?_, ?_, rfl, rfl, rfl, rfl⟩
    · unfold maybe_step_down
      rw [if_pos h]
      unfold advance_term
      rw [if_neg (not_not_intro h)]
    · show s.current_term ≤ t
      omega
  · refine ⟨s, ?_, le_refl _, rfl, rfl, rfl, rfl⟩
    unfold maybe_step_down
    rw [if_neg h]

/-- Helper: the vote-response handler never raises, never lowers the term,
and leaves the callbacks table alone. -/
theorem vote_res_handler_ok (ct : Nat) (src : String) (rt : Nat) (g : Bool)
    (s : NodeState) :
    ∃ s2, vote_res_handler ct src rt g s = .ok s2 ∧
      s.current_term ≤ s2.current_term ∧ s2.callbacks = s.callbacks := by
  obtain ⟨s1, h1, hterm, hcb, _, _, _⟩ := maybe_step_down_ok s rt
  unfold vote_res_handler
  simp only [h1]
  by_cases hc : s1.state = "candidate" ∧ s1.current_term = ct ∧
      rt = s1.current_term ∧ g = true
  · exact ⟨{ s1 with votes := setAdd s1.votes src }, by rw [if_pos hc], hterm, hcb⟩
  · exact ⟨s1, by rw [if_neg hc], hterm, hcb⟩

/-- C7: current_term never decreases: advance_term with a non-increasing
term raises the invariant-violation error "Can\x27t go backwards"; a message
carrying a term above current_term makes maybe_step_down adopt that term
and move the node to role follower; and every successfully handled message
leaves current_term no smaller than before. -/
theorem c7_current_term_monotone :
    (∀ (s : NodeState) (t : Nat), ¬ s.current_term < t →
      advance_term s t = .error "Can\x27t go backwards") ∧
    (∀ (s : NodeState) (t : Nat), s.current_term < t →
      maybe_step_down s t = .ok (become_follower { s with current_term := t }) ∧
      (become_follower { s with current_term := t }).current_term = t ∧
      (become_follower { s with current_term := t }).state = "follower") ∧
    (∀ (s : NodeState) (m : Msg) (s1 : NodeState) (out : List OutMsg),
      handleMsg s m = .ok (s1, out) → s.current_term ≤ s1.current_term) := by
  refine ⟨?_, ?_, ?_⟩
  · intro s t h
    unfold advance_term
    rw [if_pos h]
  · intro s t h
    refine ⟨?_, rfl, rfl⟩
    unfold maybe_step_down
    rw [if_pos h]
    unfold advance_term
    rw [if_neg (not_not_intro h)]
  · intro s m s1 out h
    obtain ⟨msrc, mdest, body⟩ := m
    cases body with
    | reply r term granted =>
        simp only [handleMsg] at h
        cases hl : lookupCallback s.callbacks r with
        | none => rw [hl] at h; exact absurd h (by simp)
        | some cb =>
            cases cb with
            | voteRes ct =>
                simp only [hl] at h
                obtain ⟨s2, h2, hterm, _⟩ := vote_res_handler_ok ct msrc term
                  granted { s with callbacks := removeCallback s.callbacks r }
                simp only [h2] at h
                simp only [Except.ok.injEq, Prod.mk.injEq] at h
                obtain ⟨hs, -⟩ := h
                subst hs
                exact hterm
    | raft_init nid nids mid =>
        simp only [handleMsg] at h
        unfold raft_init at h
        by_cases hn : s.state ≠ "nascent"
        · rw [if_pos hn] at h; exact absurd h (by simp)
        · rw [if_neg hn] at h
          simp only [Except.ok.injEq, Prod.mk.injEq] at h
          obtain ⟨hs, -⟩ := h
          subst hs
          exact le_refl _
    | client op =>
        simp only [handleMsg, kv_req] at h
        simp only [Except.ok.injEq, Prod.mk.injEq] at h
        obtain ⟨hs, -⟩ := h
        subst hs
        exact le_refl _
    | other t mid =>
        simp only [handleMsg] at h
        exact absurd h (by simp)

/-- Witness for c7_current_term_monotone at term 0 and a concrete follower:
advance_term to 0 is the invariant violation, stepping down to term 3 moves
to follower at term 3, and handling a client write leaves the term intact. -/
theorem c7_witness :
    advance_term c1FollowerNode 0 = .error "Can\x27t go backwards" ∧
    maybe_step_down c1FollowerNode 3 =
      .ok (become_follower { c1FollowerNode with current_term := 3 }) ∧
    c1FollowerNode.current_term ≤
      ({ c1FollowerNode with kv := [("x", 1)] } : NodeState).current_term :=
  ⟨c7_current_term_monotone.1 c1FollowerNode 0 (by decide),
   (c7_current_term_monotone.2.1 c1FollowerNode 3 (by decide)).1,
   c7_current_term_monotone.2.2 c1FollowerNode
     ⟨"c1", "n0", .client (.write "x" 1 5)⟩
     { c1FollowerNode with kv := [("x", 1)] } [⟨"c1", .resp .write_ok 5⟩] rfl⟩

/-- C3 counterexample: the claim says a second raft_init terminates the
node with a non-zero exit; in the code the handler raises but the event
loop's bare except catches it, so the loop continues with the node state
unchanged and no output. -/
theorem c3_counterexample_second_init_does_not_terminate :
    handleMsg c1FollowerNode ⟨"c0", "n0", .raft_init "n0" ["n0", "n1", "n2"] 7⟩ =
      .error "Can\x27t init twice!" ∧
    mainStep c1FollowerNode
        (.msg ⟨"c0", "n0", .raft_init "n0" ["n0", "n1", "n2"] 7⟩) =
      (c1FollowerNode, [], .continued) :=
  ⟨rfl, rfl⟩

/-- C3 amended: a raft_init received when the role is no longer nascent
makes the handler raise "Can\x27t init twice!"; the event loop catches the
exception, logs it, and continues processing with the node state unchanged
(it does not terminate, and it does not apply the re-initialization). -/
theorem c3_amended_reinit_raises_and_loop_continues (s : NodeState)
    (src dest nid : String) (nids : List String) (mid : Nat)
    (h : s.state ≠ "nascent") :
    handleMsg s ⟨src, dest, .raft_init nid nids mid⟩ =
      .error "Can\x27t init twice!" ∧
    mainStep s (.msg ⟨src, dest, .raft_init nid nids mid⟩) =
      (s, [], .continued) := by
  have h1 : handleMsg s ⟨src, dest, .raft_init nid nids mid⟩ =
      .error "Can\x27t init twice!" := by
    simp only [handleMsg]
    unfold raft_init
    rw [if_pos h]
  refine ⟨h1, ?_⟩
  unfold mainStep
  simp only [h1]

/-- Witness for c3_amended_reinit_raises_and_loop_continues on a concrete
initialized follower. -/
theorem c3_amended_witness :
    handleMsg c1FollowerNode ⟨"c0", "n0", .raft_init "n5" ["n5"] 9⟩ =
      .error "Can\x27t init twice!" ∧
    mainStep c1FollowerNode (.msg ⟨"c0", "n0", .raft_init "n5" ["n5"] 9⟩) =
      (c1FollowerNode, [], .continued) :=
  c3_amended_reinit_raises_and_loop_continues c1FollowerNode "c0" "n0" "n5"
    ["n5"] 9 (by decide)

/-- Helper: after deleting id r from the callbacks table, looking r up
misses. -/
theorem lookup_remove_none (cbs : List (Nat × Callback)) (r : Nat) :
    lookupCallback (removeCallback cbs r) r = none := by
  induction cbs with
  | nil => rfl
  | cons p rest ih =>
      obtain ⟨i, c⟩ := p
      unfold removeCallback
      by_cases h : i = r
      · rw [if_pos h]; exact ih
      · rw [if_neg h]
        unfold lookupCallback
        rw [if_neg h]
        exact ih

/-- C8 counterexample: an inbound reply whose in_reply_to has no entry in
the callbacks table raises a KeyError (the dict lookup in process_msg)
instead of being logged and discarded without an error. -/
theorem c8_counterexample_stale_reply_raises :
    handleMsg c1FollowerNode ⟨"n1", "n0", .reply 5 1 true⟩ =
      .error ("KeyError: " ++ toString 5) :=
  rfl

/-- C8 amended: a reply with a registered in_reply_to removes the entry and
runs its handler exactly once (afterwards the id no longer resolves); a
reply with an unknown in_reply_to raises a KeyError, which the event loop
catches and logs, continuing with the node state unmodified. -/
theorem c8_amended_reply_dispatch (s : NodeState) (src dest : String)
    (r term : Nat) (g : Bool) :
    (lookupCallback s.callbacks r = none →
      handleMsg s ⟨src, dest, .reply r term g⟩ =
        .error ("KeyError: " ++ toString r) ∧
      mainStep s (.msg ⟨src, dest, .reply r term g⟩) = (s, [], .continued)) ∧
    (∀ ct, lookupCallback s.callbacks r = some (.voteRes ct) →
      ∃ s2, vote_res_handler ct src term g
          { s with callbacks := removeCallback s.callbacks r } = .ok s2 ∧
        handleMsg s ⟨src, dest, .reply r term g⟩ = .ok (s2, []) ∧
        s2.callbacks = removeCallback s.callbacks r ∧
        lookupCallback s2.callbacks r = none) := by
  constructor
  · intro hl
    have h1 : handleMsg s ⟨src, dest, .reply r term g⟩ =
        .error ("KeyError: " ++ toString r) := by
      simp only [handleMsg, hl]
    refine ⟨h1, ?_⟩
    unfold mainStep
    simp only [h1]
  · intro ct hl
    obtain ⟨s2, h2, _, hcb⟩ := vote_res_handler_ok ct src term g
      { s with callbacks := removeCallback s.callbacks r }
    refine ⟨s2, h2, ?_, hcb, ?_⟩
    · simp only [handleMsg, hl, h2]
    · rw [hcb]
      exact lookup_remove_none s.callbacks r

/-- Witness for c8_amended_reply_dispatch: the stale branch on a node with
an empty callbacks table, and the hit branch on the candidate. -/
theorem c8_amended_witness :
    (handleMsg c1FollowerNode ⟨"n1", "n0", .reply 9 1 true⟩ =
        .error ("KeyError: " ++ toString 9) ∧
      mainStep c1FollowerNode (.msg ⟨"n1", "n0", .reply 9 1 true⟩) =
        (c1FollowerNode, [], .continued)) ∧
    (∃ s2, vote_res_handler 1 "n1" 1 true
        { c2CandidateNode with
          callbacks := removeCallback c2CandidateNode.callbacks 0 } = .ok s2 ∧
      handleMsg c2CandidateNode ⟨"n1", "n0", .reply 0 1 true⟩ = .ok (s2, []) ∧
      s2.callbacks = removeCallback c2CandidateNode.callbacks 0 ∧
      lookupCallback s2.callbacks 0 = none) :=
  ⟨(c8_amended_reply_dispatch c1FollowerNode "n1" "n0" 9 1 true).1 rfl,
   (c8_amended_reply_dispatch c2CandidateNode "n1" "n0" 0 1 true).2 1 rfl⟩

/-- C9: no inbound message terminates the loop: whatever the handler does,
the iteration outcome for a message event is continued (only the keyboard
interrupt breaks the loop), and in particular the double-initialization,
unknown-message-type and unknown-reply-id exceptions are raised by the
handlers yet the loop continues with state untouched. -/
theorem c9_no_message_terminates_loop :
    (∀ (s : NodeState) (m : Msg), (mainStep s (.msg m)).2.2 = .continued) ∧
    handleMsg c1FollowerNode ⟨"c0", "n0", .raft_init "n0" ["n0"] 7⟩ =
      .error "Can\x27t init twice!" ∧
    handleMsg c1FollowerNode ⟨"c0", "n0", .other "frobnicate" 8⟩ =
      .error ("No callback or handler for " ++ "frobnicate") ∧
    handleMsg c1FollowerNode ⟨"n1", "n0", .reply 5 1 true⟩ =
      .error ("KeyError: " ++ toString 5) ∧
    mainStep c1FollowerNode (.msg ⟨"c0", "n0", .other "frobnicate" 8⟩) =
      (c1FollowerNode, [], .continued) := by
  refine ⟨?_, rfl, rfl, rfl, rfl⟩
  intro s m
  unfold mainStep
  cases h : handleMsg s m with
  | error e => simp only [h]
  | ok p =>
      obtain ⟨s1, out⟩ := p
      simp only [h]

end Raft
